import Mathlib

/-!
Shallow embedding of `src/main.py` (an MCP weather tool server).

The four tools (`get_location_by_coordinates`, `search_location`,
`get_current_weather`, `get_forecast`) each build one HTTP GET request,
call `response.raise_for_status()`, parse the body as JSON and extract
fields with Python `dict.get` semantics into an f-string.

The embedding models:
  - JSON values (`Json`), with numbers restricted to integers (no claim
    depends on non-integral numeric rendering);
  - Python runtime behaviour the source relies on: `dict.get` with and
    without a default (absent key yields `None` resp. the default; a key
    bound to JSON `null` yields `None` and NOT the default), attribute
    lookup on a non-dict raising `AttributeError`, truthiness (`if not
    data`), `data[0]` indexing, `for` iteration, `str.split`, and
    f-string rendering via `str()` (`None` prints as `None`);
  - `httpx` status checking: `raise_for_status` raises for any status
    outside 200..299, carrying the status;
  - the upstream HTTP exchange as a function `Upstream : Request →
    Response`, where `Response.body` is the already-parsed JSON (a body
    that fails to parse is outside the scope of the claims below).

Python exceptions are modelled by `Except PyError`; a tool call that
raises is `Except.error`, a returned string is `Except.ok`.
-/

/-- A parsed JSON value, as handed to the tools by `response.json()`. -/
inductive Json where
  | null : Json
  | bool : Bool → Json
  | num : Int → Json
  | str : String → Json
  | arr : List Json → Json
  | obj : List (String × Json) → Json

/-- Python exceptions the tool bodies can raise. -/
inductive PyError where
  | httpStatusError : Nat → PyError
  | attributeError : PyError
  | typeError : PyError
  | indexError : PyError
  | keyError : PyError
deriving DecidableEq, Repr

/-- First-match lookup in a JSON object's field list (a parsed JSON
object has one binding per key, so first-match agrees with `dict`). -/
def pyLookup : List (String × Json) → String → Option Json
  | [], _ => none
  | (k, v) :: rest, key => if k = key then some v else pyLookup rest key

/-- Python `x.get(key)`: on a dict, the bound value, or `None` when the
key is absent (an absent key and a key bound to JSON `null` are
indistinguishable, both give Python `None`); on any non-dict value
(including `None`), attribute lookup of `get` raises `AttributeError`. -/
def pyGet : Json → String → Except PyError Json
  | .obj fs, key => .ok ((pyLookup fs key).getD .null)
  | _, _ => .error .attributeError

/-- Python `x.get(key, default)`: on a dict, the bound value when the key
is present (even when that value is `null`), the default when absent; on
a non-dict, `AttributeError`. -/
def pyGetD : Json → String → Json → Except PyError Json
  | .obj fs, key, d => .ok ((pyLookup fs key).getD d)
  | _, _, _ => .error .attributeError

/-- Python truthiness of a JSON value, as used by `if not data`. -/
def pyFalsy : Json → Bool
  | .null => true
  | .bool b => !b
  | .num n => n == 0
  | .str s => s.isEmpty
  | .arr xs => xs.isEmpty
  | .obj fs => fs.isEmpty

/-- Python `data[0]`: first element of a list, first character of a
string; `IndexError` when empty, `KeyError` for a dict subscripted by an
integer, `TypeError` for non-subscriptable values. -/
def pyIndexZero : Json → Except PyError Json
  | .arr [] => .error .indexError
  | .arr (x :: _) => .ok x
  | .str s =>
    match s.data with
    | [] => .error .indexError
    | c :: _ => .ok (.str (String.singleton c))
  | .obj _ => .error .keyError
  | _ => .error .typeError

/-- Python `for x in data`: elements of a list, characters of a string,
keys of a dict; `TypeError` otherwise. -/
def pyIter : Json → Except PyError (List Json)
  | .arr xs => .ok xs
  | .str s => .ok (s.data.map (fun c => .str (String.singleton c)))
  | .obj fs => .ok (fs.map (fun kv => .str kv.1))
  | _ => .error .typeError

mutual

/-- Python `repr` of a JSON value (string escaping inside `repr` of a
string is not modelled; no claim exercises it). -/
def pyRepr : Json → String
  | .null => "None"
  | .bool b => cond b "True" "False"
  | .num n => toString n
  | .str s => "\x27" ++ s ++ "\x27"
  | .arr xs => "[" ++ pyReprList xs ++ "]"
  | .obj fs => "\x7b" ++ pyReprFields fs ++ "\x7d"

/-- Comma-separated `repr`s of list elements. -/
def pyReprList : List Json → String
  | [] => ""
  | [j] => pyRepr j
  | j :: rest => pyRepr j ++ ", " ++ pyReprList rest

/-- Comma-separated `repr`s of dict entries. -/
def pyReprFields : List (String × Json) → String
  | [] => ""
  | [kv] => "\x27" ++ kv.1 ++ "\x27: " ++ pyRepr kv.2
  | kv :: rest => "\x27" ++ kv.1 ++ "\x27: " ++ pyRepr kv.2 ++ ", " ++ pyReprFields rest

end

/-- Python `str()` as used by f-string interpolation: a string prints
as-is, everything else prints as its `repr` (`None` → `"None"`). -/
def pyStr : Json → String
  | .str s => s
  | j => pyRepr j

/-- Splitting a character list at every occurrence of `sep`, Python
`s.split(sep)` for a one-character separator: always at least one piece,
`""` splits to `[""]`. -/
def splitOnChar : List Char → Char → List (List Char)
  | [], _ => [[]]
  | c :: cs, sep =>
    let rest := splitOnChar cs sep
    if c = sep then [] :: rest
    else (c :: rest.headD []) :: rest.tail

/-- The date extraction `get_forecast` applies to the `Date` field:
`s.split("T")[0]` (`splitOnChar` never returns `[]`, so `headD` is the
same as Python's `[0]`). -/
def extractDate (s : String) : String :=
  ((splitOnChar s.data 'T').map String.mk).headD ""

/-- Python method chain `.split("T")[0]` on a JSON value: only a string
has a `split` attribute. -/
def pyDateSplit : Json → Except PyError String
  | .str s => .ok (extractDate s)
  | _ => .error .attributeError

/-- Python `"\n".join(xs)`. -/
def pyJoinNl : List String → String
  | [] => ""
  | [s] => s
  | s :: rest => s ++ "\n" ++ pyJoinNl rest

/-- A finite Python float, modelled by the shape of its CPython `str()`
rendering, which is all the source uses of it
(`f"\x7blatitude\x7d,\x7blongitude\x7d"`). CPython renders a finite
float either in plain decimal (`dec`: optional sign, integer digits,
dot, fraction digits — used for zero and magnitudes in [1e-4, 1e16)) or
in scientific notation (`sci`: optional sign, one mantissa digit, an
optional dot and fraction digits, the letter `e`, the exponent sign and
digits — used for the remaining magnitudes, e.g. `str(0.00001)` is
`"1e-05"`). -/
inductive PyFloat where
  | dec : Bool → List (Fin 10) → List (Fin 10) → PyFloat
  | sci : Bool → Fin 10 → List (Fin 10) → Bool → List (Fin 10) → PyFloat
deriving DecidableEq, Repr

/-- Character sequence of Python `str()` of a finite float. -/
def pyFloatChars : PyFloat → List Char
  | .dec neg ip fp =>
    (cond neg ['-'] []) ++ ip.map (fun d => Nat.digitChar d.val)
      ++ ['.'] ++ fp.map (fun d => Nat.digitChar d.val)
  | .sci neg mi mf en ex =>
    (cond neg ['-'] []) ++ [Nat.digitChar mi.val]
      ++ (cond mf.isEmpty [] ('.' :: mf.map (fun d => Nat.digitChar d.val)))
      ++ ['e'] ++ (cond en ['-'] ['+']) ++ ex.map (fun d => Nat.digitChar d.val)

/-- Python `str()` of a finite float. -/
def pyFloatStr (x : PyFloat) : String := String.mk (pyFloatChars x)

/-- Modelled from the spec: C8 calls `q`'s two components "the
plain-decimal rendering" of the coordinates ("no locale-based
separators, plain decimal"). Character-level necessary condition for
that: only decimal digits, a minus sign and the dot — in particular no
exponent letter. Used to compare the spec's words with the CPython
rendering the code actually interpolates. -/
def isPlainDecimal (s : String) : Bool :=
  s.data.all (fun c => c.isDigit || c == '-' || c == '.')

/-- The environment-sourced configuration (`ACCUWEATHER_BASE_URL`,
`ACCUWEATHER_API_KEY`). -/
structure Config where
  baseUrl : String
  apiKey : String

/-- An outbound GET request: the URL and the query parameters, in the
order the source lists them. -/
structure Request where
  url : String
  params : List (String × String)
deriving DecidableEq, Repr

/-- An upstream HTTP response: the status code and the parsed JSON body. -/
structure Response where
  status : Nat
  body : Json

/-- The upstream API as a function from the one issued request to its
response. -/
def Upstream : Type := Request → Response

/-- httpx `response.raise_for_status()` followed by `response.json()`:
any status outside 200..299 raises `HTTPStatusError` carrying the
status, otherwise the parsed body is returned. -/
def raise_for_status (r : Response) : Except PyError Json :=
  if 200 ≤ r.status ∧ r.status < 300 then .ok r.body
  else .error (.httpStatusError r.status)

/-- Request built by `get_location_by_coordinates`. -/
def locate_request (cfg : Config) (latitude longitude : PyFloat) : Request :=
  { url := cfg.baseUrl ++ "/locations/v1/cities/geoposition/search"
    params := [("apikey", cfg.apiKey), ("q", pyFloatStr latitude ++ "," ++ pyFloatStr longitude)] }

/-- Request built by `search_location`. -/
def search_request (cfg : Config) (query : String) : Request :=
  { url := cfg.baseUrl ++ "/locations/v1/cities/search"
    params := [("apikey", cfg.apiKey), ("q", query)] }

/-- Request built by `get_current_weather`. -/
def current_request (cfg : Config) (location_key : String) : Request :=
  { url := cfg.baseUrl ++ "/currentconditions/v1/" ++ location_key
    params := [("apikey", cfg.apiKey)] }

/-- Request built by `get_forecast`: the endpoint path is the fixed
5-day one; the `days` tool parameter does not occur. -/
def forecast_request (cfg : Config) (location_key : String) : Request :=
  { url := cfg.baseUrl ++ "/forecasts/v1/daily/5day/" ++ location_key
    params := [("apikey", cfg.apiKey), ("metric", "true")] }

/-- Tool `get_location_by_coordinates(latitude, longitude)`. -/
def get_location_by_coordinates (cfg : Config) (upstream : Upstream)
    (latitude longitude : PyFloat) : Except PyError String :=
  let response := upstream (locate_request cfg latitude longitude)
  do
    let data ← raise_for_status response
    let location_key ← pyGet data "Key"
    let localized_name ← pyGet data "LocalizedName"
    let adminObj ← pyGetD data "AdministrativeArea" (.obj [])
    let administrative_area ← pyGet adminObj "LocalizedName"
    let countryObj ← pyGetD data "Country" (.obj [])
    let country ← pyGet countryObj "LocalizedName"
    return "Location: " ++ pyStr localized_name ++ ", " ++ pyStr administrative_area
      ++ ", " ++ pyStr country ++ ". Key: " ++ pyStr location_key

/-- Tool `search_location(query)`. -/
def search_location (cfg : Config) (upstream : Upstream)
    (query : String) : Except PyError String :=
  let response := upstream (search_request cfg query)
  do
    let data ← raise_for_status response
    if pyFalsy data then
      return "No location found."
    else
      let top_match ← pyIndexZero data
      let location_key ← pyGet top_match "Key"
      let localized_name ← pyGet top_match "LocalizedName"
      let countryObj ← pyGetD top_match "Country" (.obj [])
      let country ← pyGet countryObj "LocalizedName"
      return "Found: " ++ pyStr localized_name ++ ", " ++ pyStr country
        ++ ". Key: " ++ pyStr location_key

/-- Tool `get_current_weather(location_key)`. The `Temperature`
chain is evaluated twice, as in the source. -/
def get_current_weather (cfg : Config) (upstream : Upstream)
    (location_key : String) : Except PyError String :=
  let response := upstream (current_request cfg location_key)
  do
    let data ← raise_for_status response
    if pyFalsy data then
      return "No weather data available."
    else
      let weather ← pyIndexZero data
      let weather_text ← pyGet weather "WeatherText"
      let tempObjA ← pyGetD weather "Temperature" (.obj [])
      let metricObjA ← pyGetD tempObjA "Metric" (.obj [])
      let temp_value ← pyGet metricObjA "Value"
      let tempObjB ← pyGetD weather "Temperature" (.obj [])
      let metricObjB ← pyGetD tempObjB "Metric" (.obj [])
      let temp_unit ← pyGet metricObjB "Unit"
      return "Current Weather: " ++ pyStr weather_text ++ ", Temperature: "
        ++ pyStr temp_value ++ "°" ++ pyStr temp_unit

/-- `data.get("Headline", \x7b\x7d).get("Text", "No headline")` in
`get_forecast`. -/
def headlineText (data : Json) : Except PyError Json := do
  let hobj ← pyGetD data "Headline" (.obj [])
  pyGetD hobj "Text" (.str "No headline")

/-- One iteration of the `for day in data.get("DailyForecasts", [])`
loop body of `get_forecast`, in source evaluation order. -/
def forecastDayLine (day : Json) : Except PyError String := do
  let dateJson ← pyGetD day "Date" (.str "")
  let date ← pyDateSplit dateJson
  let tempObjA ← pyGetD day "Temperature" (.obj [])
  let minObj ← pyGetD tempObjA "Minimum" (.obj [])
  let min_temp ← pyGet minObj "Value"
  let tempObjB ← pyGetD day "Temperature" (.obj [])
  let maxObj ← pyGetD tempObjB "Maximum" (.obj [])
  let max_temp ← pyGet maxObj "Value"
  let dayObj ← pyGetD day "Day" (.obj [])
  let day_phrase ← pyGet dayObj "IconPhrase"
  return "- " ++ date ++ ": " ++ pyStr day_phrase ++ ", Min: " ++ pyStr min_temp
    ++ "°C, Max: " ++ pyStr max_temp ++ "°C"

/-- Tool `get_forecast(location_key, days=5)`: the `days` parameter is
accepted and unused. -/
def get_forecast (cfg : Config) (upstream : Upstream)
    (location_key : String) (days : Int) : Except PyError String :=
  let response := upstream (forecast_request cfg location_key)
  do
    let data ← raise_for_status response
    let headline ← headlineText data
    let dailyJson ← pyGetD data "DailyForecasts" (.arr [])
    let dayList ← pyIter dailyJson
    let dayLines ← dayList.mapM forecastDayLine
    return pyJoinNl (("Forecast Headline: " ++ pyStr headline) :: dayLines)

/-! Helper lemmas about the embedding. -/

@[simp]
theorem pyBind_ok {α β : Type} (a : α) (f : α → Except PyError β) :
    (Except.ok a : Except PyError α) >>= f = f a := rfl

@[simp]
theorem pyBind_error {α β : Type} (e : PyError) (f : α → Except PyError β) :
    (Except.error e : Except PyError α) >>= f = Except.error e := rfl

@[simp]
theorem pyPure_eq_ok {α : Type} (a : α) : (pure a : Except PyError α) = Except.ok a := rfl

theorem raise_for_status_ok {r : Response} (h1 : 200 ≤ r.status) (h2 : r.status < 300) :
    raise_for_status r = .ok r.body := by
  simp [raise_for_status, h1, h2]

theorem raise_for_status_fail {r : Response}
    (h : ¬ (200 ≤ r.status ∧ r.status < 300)) :
    raise_for_status r = .error (.httpStatusError r.status) := by
  rw [raise_for_status, if_neg h]

/-- Example configuration and inputs used by the witness theorems. -/
def cfgW : Config := ⟨"http://api", "KEY"⟩

/-- A float input for the witness theorems, rendering as `0.0`. -/
def pfZero : PyFloat := .dec false [0] [0]

/-- The float `0.00001`, whose CPython rendering is `"1e-05"`. -/
def pfTiny : PyFloat := .sci false 1 [] true [0, 5]

/-- An upstream that answers every request with status 404. -/
def up404 : Upstream := fun _ => ⟨404, .null⟩

/-- C1: on each of the four tools, a non-2xx upstream status makes the
call fail with `HTTPStatusError` carrying that status; no formatted
string (`Except.ok`) is ever produced from such a response. -/
theorem nonSuccessStatusPropagates (cfg : Config) (u : Upstream) :
    (∀ lat lon : PyFloat,
      ¬ (200 ≤ (u (locate_request cfg lat lon)).status ∧
          (u (locate_request cfg lat lon)).status < 300) →
      get_location_by_coordinates cfg u lat lon =
        .error (.httpStatusError (u (locate_request cfg lat lon)).status)) ∧
    (∀ query : String,
      ¬ (200 ≤ (u (search_request cfg query)).status ∧
          (u (search_request cfg query)).status < 300) →
      search_location cfg u query =
        .error (.httpStatusError (u (search_request cfg query)).status)) ∧
    (∀ location_key : String,
      ¬ (200 ≤ (u (current_request cfg location_key)).status ∧
          (u (current_request cfg location_key)).status < 300) →
      get_current_weather cfg u location_key =
        .error (.httpStatusError (u (current_request cfg location_key)).status)) ∧
    (∀ (location_key : String) (days : Int),
      ¬ (200 ≤ (u (forecast_request cfg location_key)).status ∧
          (u (forecast_request cfg location_key)).status < 300) →
      get_forecast cfg u location_key days =
        .error (.httpStatusError (u (forecast_request cfg location_key)).status)) := by
  refine ⟨?_, ?_, ?_, ?_⟩
  · intro lat lon h
    simp only [get_location_by_coordinates]
    rw [raise_for_status_fail h]
    simp
  · intro query h
    simp only [search_location]
    rw [raise_for_status_fail h]
    simp
  · intro location_key h
    simp only [get_current_weather]
    rw [raise_for_status_fail h]
    simp
  · intro location_key days h
    simp only [get_forecast]
    rw [raise_for_status_fail h]
    simp

/-- Witness for C1 at a concrete 404 upstream. -/
theorem nonSuccessStatusPropagates_wit :
    get_location_by_coordinates cfgW up404 pfZero pfZero = .error (.httpStatusError 404) ∧
    search_location cfgW up404 "Paris" = .error (.httpStatusError 404) ∧
    get_current_weather cfgW up404 "12345" = .error (.httpStatusError 404) ∧
    get_forecast cfgW up404 "12345" 5 = .error (.httpStatusError 404) :=
  ⟨(nonSuccessStatusPropagates cfgW up404).1 pfZero pfZero (by decide),
   (nonSuccessStatusPropagates cfgW up404).2.1 "Paris" (by decide),
   (nonSuccessStatusPropagates cfgW up404).2.2.1 "12345" (by decide),
   (nonSuccessStatusPropagates cfgW up404).2.2.2 "12345" 5 (by decide)⟩

/-- C2: a 2xx response whose body is the empty JSON array makes
`search_location` return exactly `"No location found."` and
`get_current_weather` return exactly `"No weather data available."`,
both as ordinary `Except.ok` results with no field extraction. -/
theorem emptyArrayTextualOutcome (cfg : Config) (u : Upstream) :
    (∀ (query : String) (s : Nat), 200 ≤ s → s < 300 →
      u (search_request cfg query) = ⟨s, .arr []⟩ →
      search_location cfg u query = .ok "No location found.") ∧
    (∀ (location_key : String) (s : Nat), 200 ≤ s → s < 300 →
      u (current_request cfg location_key) = ⟨s, .arr []⟩ →
      get_current_weather cfg u location_key = .ok "No weather data available.") := by
  constructor
  · intro query s h1 h2 hresp
    simp only [search_location]
    rw [hresp, raise_for_status_ok h1 h2]
    simp [pyFalsy]
  · intro location_key s h1 h2 hresp
    simp only [get_current_weather]
    rw [hresp, raise_for_status_ok h1 h2]
    simp [pyFalsy]

/-- An upstream that answers every request with status 200 and an empty
JSON array body. -/
def upEmptyArr : Upstream := fun _ => ⟨200, .arr []⟩

/-- Witness for C2 at a concrete empty-array upstream. -/
theorem emptyArrayTextualOutcome_wit :
    search_location cfgW upEmptyArr "Paris" = .ok "No location found." ∧
    get_current_weather cfgW upEmptyArr "12345" = .ok "No weather data available." :=
  ⟨(emptyArrayTextualOutcome cfgW upEmptyArr).1 "Paris" 200 (by decide) (by decide) rfl,
   (emptyArrayTextualOutcome cfgW upEmptyArr).2 "12345" 200 (by decide) (by decide) rfl⟩

/-- C3: the forecast request is built from the fixed 5-day path with
`metric=true` and does not mention `days`; consequently, for a fixed
upstream, the whole tool result is identical for any two `days` values. -/
theorem forecastRequestIgnoresDays (cfg : Config) (u : Upstream) (location_key : String) :
    forecast_request cfg location_key =
      ⟨cfg.baseUrl ++ "/forecasts/v1/daily/5day/" ++ location_key,
       [("apikey", cfg.apiKey), ("metric", "true")]⟩ ∧
    ∀ d1 d2 : Int, get_forecast cfg u location_key d1 = get_forecast cfg u location_key d2 :=
  ⟨rfl, fun _ _ => rfl⟩

/-- C4: on a non-empty candidate array, `search_location`'s result is a
function of the element at index 0 alone: two upstreams whose 2xx
responses share the first candidate but differ arbitrarily in the later
elements produce the same output. -/
theorem searchUsesOnlyFirstCandidate (cfg : Config) (query : String) :
    ∀ (u1 u2 : Upstream) (s1 s2 : Nat) (x : Json) (rest1 rest2 : List Json),
      200 ≤ s1 → s1 < 300 → 200 ≤ s2 → s2 < 300 →
      u1 (search_request cfg query) = ⟨s1, .arr (x :: rest1)⟩ →
      u2 (search_request cfg query) = ⟨s2, .arr (x :: rest2)⟩ →
      search_location cfg u1 query = search_location cfg u2 query := by
  intro u1 u2 s1 s2 x rest1 rest2 ha1 ha2 hb1 hb2 h1 h2
  simp only [search_location]
  rw [h1, h2, raise_for_status_ok ha1 ha2, raise_for_status_ok hb1 hb2]
  simp [pyFalsy, pyIndexZero]

/-- An upstream returning two search candidates. -/
def upTwoCand : Upstream := fun _ =>
  ⟨200, .arr [.obj [("Key", .str "111"), ("LocalizedName", .str "Paris")],
              .obj [("Key", .str "222"), ("LocalizedName", .str "Paris TX")]]⟩

/-- An upstream returning only the first of `upTwoCand`'s candidates. -/
def upOneCand : Upstream := fun _ =>
  ⟨200, .arr [.obj [("Key", .str "111"), ("LocalizedName", .str "Paris")]]⟩

/-- Witness for C4: dropping the second candidate does not change the
output. -/
theorem searchUsesOnlyFirstCandidate_wit :
    search_location cfgW upTwoCand "Paris" = search_location cfgW upOneCand "Paris" :=
  searchUsesOnlyFirstCandidate cfgW "Paris" upTwoCand upOneCand 200 200
    (.obj [("Key", .str "111"), ("LocalizedName", .str "Paris")])
    [.obj [("Key", .str "222"), ("LocalizedName", .str "Paris TX")]] []
    (by decide) (by decide) (by decide) (by decide) rfl rfl

theorem pyJoinNl_head (a : String) (rest : List String) :
    pyJoinNl (a :: rest) = a ∨ ∃ t, pyJoinNl (a :: rest) = a ++ "\n" ++ t := by
  cases rest with
  | nil => exact Or.inl rfl
  | cons b r => exact Or.inr ⟨pyJoinNl (b :: r), by simp [pyJoinNl]⟩

/-- C5: the forecast output's first line is the headline line: with an
empty (or absent, hence defaulted-empty) `DailyForecasts` the output is
exactly the one headline line, whatever the headline value is; with
`Headline` absent, or present without `Text`, the headline degrades to
`"No headline"`; and every successful output is either exactly the
headline line or the headline line followed by a newline and the day
lines. -/
theorem forecastHeadlineFirstLine (cfg : Config) (u : Upstream) (location_key : String) :
    (∀ (days : Int) (s : Nat) (fs : List (String × Json)) (h : Json),
      200 ≤ s → s < 300 →
      u (forecast_request cfg location_key) = ⟨s, .obj fs⟩ →
      headlineText (.obj fs) = .ok h →
      (pyLookup fs "DailyForecasts" = none ∨
        pyLookup fs "DailyForecasts" = some (.arr [])) →
      get_forecast cfg u location_key days = .ok ("Forecast Headline: " ++ pyStr h)) ∧
    (∀ (days : Int) (s : Nat) (fs : List (String × Json)), 200 ≤ s → s < 300 →
      u (forecast_request cfg location_key) = ⟨s, .obj fs⟩ →
      pyLookup fs "Headline" = none →
      pyLookup fs "DailyForecasts" = none →
      get_forecast cfg u location_key days = .ok "Forecast Headline: No headline") ∧
    (∀ (days : Int) (s : Nat) (fs hfs : List (String × Json)), 200 ≤ s → s < 300 →
      u (forecast_request cfg location_key) = ⟨s, .obj fs⟩ →
      pyLookup fs "Headline" = some (.obj hfs) →
      pyLookup hfs "Text" = none →
      pyLookup fs "DailyForecasts" = some (.arr []) →
      get_forecast cfg u location_key days = .ok "Forecast Headline: No headline") ∧
    (∀ (days : Int) (s : Nat) (fs : List (String × Json)) (h : Json) (out : String),
      200 ≤ s → s < 300 →
      u (forecast_request cfg location_key) = ⟨s, .obj fs⟩ →
      headlineText (.obj fs) = .ok h →
      get_forecast cfg u location_key days = .ok out →
      out = "Forecast Headline: " ++ pyStr h ∨
        ∃ t, out = "Forecast Headline: " ++ pyStr h ++ "\n" ++ t) := by
  refine ⟨?_, ?_, ?_, ?_⟩
  · intro days s fs h h1 h2 hresp hhead hD
    have hrs : raise_for_status (u (forecast_request cfg location_key)) = .ok (.obj fs) := by
      rw [hresp]; exact raise_for_status_ok h1 h2
    simp only [get_forecast]
    rw [hrs]
    simp only [pyBind_ok]
    rw [hhead]
    simp only [pyBind_ok, pyGetD]
    rcases hD with hD | hD
    · rw [hD]
      simp [pyIter, pyJoinNl]
      try rfl
    · rw [hD]
      simp [pyIter, pyJoinNl]
      try rfl
  · intro days s fs h1 h2 hresp hH hD
    have hrs : raise_for_status (u (forecast_request cfg location_key)) = .ok (.obj fs) := by
      rw [hresp]; exact raise_for_status_ok h1 h2
    simp only [get_forecast]
    rw [hrs]
    simp [headlineText, pyGetD, hH, hD, pyLookup, pyIter, pyJoinNl, pyStr]
    rfl
  · intro days s fs hfs h1 h2 hresp hH hT hD
    have hrs : raise_for_status (u (forecast_request cfg location_key)) = .ok (.obj fs) := by
      rw [hresp]; exact raise_for_status_ok h1 h2
    simp only [get_forecast]
    rw [hrs]
    simp [headlineText, pyGetD, hH, hT, hD, pyIter, pyJoinNl, pyStr]
    rfl
  · intro days s fs h out h1 h2 hresp hhead hout
    have hrs : raise_for_status (u (forecast_request cfg location_key)) = .ok (.obj fs) := by
      rw [hresp]; exact raise_for_status_ok h1 h2
    simp only [get_forecast] at hout
    rw [hrs] at hout
    simp only [pyBind_ok] at hout
    rw [hhead] at hout
    simp only [pyBind_ok, pyGetD] at hout
    cases hiter : pyIter ((pyLookup fs "DailyForecasts").getD (Json.arr [])) with
    | error e =>
      rw [hiter] at hout
      simp at hout
    | ok l =>
      rw [hiter] at hout
      simp only [pyBind_ok] at hout
      cases hmap : l.mapM forecastDayLine with
      | error e =>
        rw [hmap] at hout
        simp at hout
      | ok lines =>
        rw [hmap] at hout
        simp only [pyBind_ok, pyPure_eq_ok, Except.ok.injEq] at hout
        rcases pyJoinNl_head ("Forecast Headline: " ++ pyStr h) lines with hj | ⟨t, hj⟩
        · exact Or.inl (by rw [← hout, hj])
        · exact Or.inr ⟨t, by rw [← hout, hj]⟩

/-- An upstream answering 200 with an empty JSON object body. -/
def upObjEmpty : Upstream := fun _ => ⟨200, .obj []⟩

/-- An upstream whose forecast body carries a present `Headline.Text`
and no `DailyForecasts`. -/
def upSunny : Upstream := fun _ =>
  ⟨200, .obj [("Headline", .obj [("Text", .str "Sunny")])]⟩

/-- Witness for C5: with a present `Headline.Text` and empty (defaulted)
`DailyForecasts` the output is exactly the headline line; with neither
`Headline` nor `DailyForecasts` it is exactly the degraded headline
line. -/
theorem forecastHeadlineFirstLine_wit :
    get_forecast cfgW upSunny "12345" 5 = .ok "Forecast Headline: Sunny" ∧
    get_forecast cfgW upObjEmpty "12345" 5 = .ok "Forecast Headline: No headline" :=
  ⟨(forecastHeadlineFirstLine cfgW upSunny "12345").1 5 200
      [("Headline", .obj [("Text", .str "Sunny")])] (.str "Sunny")
      (by decide) (by decide) rfl rfl (Or.inl rfl),
   (forecastHeadlineFirstLine cfgW upObjEmpty "12345").2.1 5 200 []
      (by decide) (by decide) rfl rfl rfl⟩

/-- C6: absent fields (including missing nested objects such as
`AdministrativeArea`, and a missing leaf under a present
`Temperature.Metric`) never raise: each tool still returns an
`Except.ok` formatted string, with every absent field rendered as the
one placeholder `pyStr .null`, and that placeholder is the text
`"None"`. -/
theorem absentFieldsRenderPlaceholder (cfg : Config) (u : Upstream) :
    (∀ (lat lon : PyFloat) (s : Nat) (fs : List (String × Json)), 200 ≤ s → s < 300 →
      u (locate_request cfg lat lon) = ⟨s, .obj fs⟩ →
      pyLookup fs "AdministrativeArea" = none →
      pyLookup fs "Country" = none →
      get_location_by_coordinates cfg u lat lon =
        .ok ("Location: " ++ pyStr ((pyLookup fs "LocalizedName").getD .null)
          ++ ", " ++ pyStr .null ++ ", " ++ pyStr .null ++ ". Key: "
          ++ pyStr ((pyLookup fs "Key").getD .null))) ∧
    (∀ (query : String) (s : Nat) (tfs : List (String × Json)) (rest : List Json),
      200 ≤ s → s < 300 →
      u (search_request cfg query) = ⟨s, .arr (.obj tfs :: rest)⟩ →
      pyLookup tfs "Country" = none →
      search_location cfg u query =
        .ok ("Found: " ++ pyStr ((pyLookup tfs "LocalizedName").getD .null)
          ++ ", " ++ pyStr .null ++ ". Key: "
          ++ pyStr ((pyLookup tfs "Key").getD .null))) ∧
    (∀ (location_key : String) (s : Nat) (wfs tfs mfs : List (String × Json))
        (rest : List Json), 200 ≤ s → s < 300 →
      u (current_request cfg location_key) = ⟨s, .arr (.obj wfs :: rest)⟩ →
      pyLookup wfs "Temperature" = some (.obj tfs) →
      pyLookup tfs "Metric" = some (.obj mfs) →
      pyLookup mfs "Value" = none →
      pyLookup mfs "Unit" = none →
      get_current_weather cfg u location_key =
        .ok ("Current Weather: " ++ pyStr ((pyLookup wfs "WeatherText").getD .null)
          ++ ", Temperature: " ++ pyStr .null ++ "°" ++ pyStr .null)) ∧
    (∀ (location_key : String) (days : Int) (s : Nat) (fs hfs : List (String × Json)),
      200 ≤ s → s < 300 →
      u (forecast_request cfg location_key) = ⟨s, .obj fs⟩ →
      pyLookup fs "Headline" = some (.obj hfs) →
      pyLookup hfs "Text" = none →
      pyLookup fs "DailyForecasts" = none →
      get_forecast cfg u location_key days = .ok "Forecast Headline: No headline") ∧
    pyStr .null = "None" := by
  refine ⟨?_, ?_, ?_, ?_, rfl⟩
  · intro lat lon s fs h1 h2 hresp hA hC
    have hrs : raise_for_status (u (locate_request cfg lat lon)) = .ok (.obj fs) := by
      rw [hresp]; exact raise_for_status_ok h1 h2
    simp only [get_location_by_coordinates]
    rw [hrs]
    simp [pyGet, pyGetD, hA, hC, pyLookup]
  · intro query s tfs rest h1 h2 hresp hC
    have hrs : raise_for_status (u (search_request cfg query)) = .ok (.arr (.obj tfs :: rest)) := by
      rw [hresp]; exact raise_for_status_ok h1 h2
    simp only [search_location]
    rw [hrs]
    simp [pyFalsy, pyIndexZero, pyGet, pyGetD, hC, pyLookup]
  · intro location_key s wfs tfs mfs rest h1 h2 hresp hT hM hV hU
    have hrs : raise_for_status (u (current_request cfg location_key)) = .ok (.arr (.obj wfs :: rest)) := by
      rw [hresp]; exact raise_for_status_ok h1 h2
    simp only [get_current_weather]
    rw [hrs]
    simp [pyFalsy, pyIndexZero, pyGet, pyGetD, hT, hM, hV, hU]
  · intro location_key days s fs hfs h1 h2 hresp hH hT hD
    have hrs : raise_for_status (u (forecast_request cfg location_key)) = .ok (.obj fs) := by
      rw [hresp]; exact raise_for_status_ok h1 h2
    simp only [get_forecast]
    rw [hrs]
    simp [headlineText, pyGetD, hH, hT, hD, pyIter, pyJoinNl, pyStr]
    rfl

/-- Witness for C6 at concrete responses with the relevant fields
absent. -/
theorem absentFieldsRenderPlaceholder_wit :
    get_location_by_coordinates cfgW upObjEmpty pfZero pfZero =
      .ok "Location: None, None, None. Key: None" ∧
    search_location cfgW upOneCand "Paris" =
      .ok "Found: Paris, None. Key: 111" :=
  ⟨(absentFieldsRenderPlaceholder cfgW upObjEmpty).1 pfZero pfZero 200 []
      (by decide) (by decide) rfl rfl rfl,
   (absentFieldsRenderPlaceholder cfgW upOneCand).2.1 "Paris" 200
      [("Key", .str "111"), ("LocalizedName", .str "Paris")] []
      (by decide) (by decide) rfl rfl⟩

theorem splitOnChar_of_not_mem (sep : Char) :
    ∀ l : List Char, (∀ c ∈ l, c ≠ sep) → splitOnChar l sep = [l] := by
  intro l
  induction l with
  | nil => intro _; rfl
  | cons c cs ih =>
    intro h
    have hc : c ≠ sep := h c (List.mem_cons_self c cs)
    have hrest := ih (fun d hd => h d (List.mem_cons_of_mem c hd))
    simp [splitOnChar, hc, hrest]

theorem extractDate_no_T (s : String) (h : ∀ c ∈ s.data, c ≠ 'T') :
    extractDate s = s := by
  rw [extractDate, splitOnChar_of_not_mem 'T' s.data h]
  cases s
  rfl

/-- C7: the date extraction used by `get_forecast` truncates
`"2024-05-01T08:00:00"` to `"2024-05-01"`, and leaves any string with
no `T` (such as an already-truncated date) unchanged. -/
theorem dateExtractionIdempotent :
    extractDate "2024-05-01T08:00:00" = "2024-05-01" ∧
    ∀ s : String, (∀ c ∈ s.data, c ≠ 'T') → extractDate s = s :=
  ⟨rfl, extractDate_no_T⟩

/-- Witness for C7 on an already-truncated date. -/
theorem dateExtractionIdempotent_wit : extractDate "2024-05-01" = "2024-05-01" :=
  dateExtractionIdempotent.2 "2024-05-01" (by decide)

theorem pyFloatStr_no_comma (x : PyFloat) : ',' ∉ (pyFloatStr x).data := by
  show ',' ∉ pyFloatChars x
  have hd : ∀ d : Fin 10, Nat.digitChar d.val ≠ ',' := by decide
  have hd2 : ∀ d : Fin 10, ¬ ',' = Nat.digitChar d.val := by decide
  cases x with
  | dec neg ip fp => cases neg <;> simp [pyFloatChars, hd]
  | sci neg mi mf en ex =>
    cases neg <;> cases en <;> cases mf <;> simp [pyFloatChars, hd, hd2]

theorem pyFloatStr_dec_plainDecimal (neg : Bool) (ip fp : List (Fin 10)) :
    isPlainDecimal (pyFloatStr (.dec neg ip fp)) = true := by
  show isPlainDecimal (String.mk (pyFloatChars (.dec neg ip fp))) = true
  have hd : ∀ d : Fin 10, (Nat.digitChar d.val).isDigit = true := by decide
  cases neg <;> simp [isPlainDecimal, pyFloatChars, hd]

/-- C8 counterexample: latitude `0.00001` is rendered by CPython as
`"1e-05"` — scientific notation, not a plain-decimal rendering — so the
`q` parameter built for it is not composed of plain-decimal renderings
as the claim states. -/
theorem locateRequestNotPlainDecimal :
    pyFloatStr pfTiny = "1e-05" ∧
    locate_request cfgW pfTiny pfZero =
      ⟨"http://api/locations/v1/cities/geoposition/search",
       [("apikey", "KEY"), ("q", "1e-05,0.0")]⟩ ∧
    isPlainDecimal "1e-05" = false :=
  ⟨rfl, rfl, rfl⟩

/-- C8 (amended): `get_location_by_coordinates` builds its one GET
request against the geoposition search path, with `q` equal to the
CPython `str()` rendering of the latitude, a comma, and that of the
longitude; the two renderings contain no comma (so the separator is
unambiguous and locale-independent), and are plain decimal whenever
CPython chooses the plain-decimal form (zero or magnitude in
[1e-4, 1e16) — outside it CPython uses scientific notation such as
`1e-05`); the call's result depends on the upstream only through that
single request. -/
theorem locateRequestFormat (cfg : Config) (lat lon : PyFloat) :
    locate_request cfg lat lon =
      ⟨cfg.baseUrl ++ "/locations/v1/cities/geoposition/search",
       [("apikey", cfg.apiKey), ("q", pyFloatStr lat ++ "," ++ pyFloatStr lon)]⟩ ∧
    ',' ∉ (pyFloatStr lat).data ∧
    ',' ∉ (pyFloatStr lon).data ∧
    (∀ (neg : Bool) (ip fp : List (Fin 10)),
      isPlainDecimal (pyFloatStr (.dec neg ip fp)) = true) ∧
    ∀ u1 u2 : Upstream,
      u1 (locate_request cfg lat lon) = u2 (locate_request cfg lat lon) →
      get_location_by_coordinates cfg u1 lat lon =
        get_location_by_coordinates cfg u2 lat lon := by
  refine ⟨rfl, pyFloatStr_no_comma lat, pyFloatStr_no_comma lon,
    pyFloatStr_dec_plainDecimal, ?_⟩
  intro u1 u2 h
  simp only [get_location_by_coordinates]
  rw [h]

/-- An upstream equal to `upObjEmpty` at the witness locate request and
different elsewhere. -/
def upAgree : Upstream := fun r =>
  if r = locate_request cfgW pfZero pfZero then ⟨200, .obj []⟩ else ⟨500, .null⟩

/-- Witness for C8: two upstreams agreeing only on the one issued
request give the same call result. -/
theorem locateRequestFormat_wit :
    get_location_by_coordinates cfgW upAgree pfZero pfZero =
      get_location_by_coordinates cfgW upObjEmpty pfZero pfZero :=
  (locateRequestFormat cfgW pfZero pfZero).2.2.2.2 upAgree upObjEmpty
    (by simp [upAgree, upObjEmpty])

/-- C9: placeholder tolerance covers only keys missing from the object;
a nested-object key present but bound to JSON `null` makes the chained
`.get` raise `AttributeError` instead of rendering a placeholder — in
`get_location_by_coordinates` for `AdministrativeArea`, and in
`get_current_weather` for `Temperature`. -/
theorem nullFieldRaises (cfg : Config) (u : Upstream) :
    (∀ (lat lon : PyFloat) (s : Nat) (fs : List (String × Json)), 200 ≤ s → s < 300 →
      u (locate_request cfg lat lon) = ⟨s, .obj fs⟩ →
      pyLookup fs "AdministrativeArea" = some .null →
      get_location_by_coordinates cfg u lat lon = .error .attributeError) ∧
    (∀ (location_key : String) (s : Nat) (wfs : List (String × Json)) (rest : List Json),
      200 ≤ s → s < 300 →
      u (current_request cfg location_key) = ⟨s, .arr (.obj wfs :: rest)⟩ →
      pyLookup wfs "Temperature" = some .null →
      get_current_weather cfg u location_key = .error .attributeError) := by
  constructor
  · intro lat lon s fs h1 h2 hresp hA
    have hrs : raise_for_status (u (locate_request cfg lat lon)) = .ok (.obj fs) := by
      rw [hresp]; exact raise_for_status_ok h1 h2
    simp only [get_location_by_coordinates]
    rw [hrs]
    simp [pyGet, pyGetD, hA]
  · intro location_key s wfs rest h1 h2 hresp hT
    have hrs : raise_for_status (u (current_request cfg location_key)) = .ok (.arr (.obj wfs :: rest)) := by
      rw [hresp]; exact raise_for_status_ok h1 h2
    simp only [get_current_weather]
    rw [hrs]
    simp [pyFalsy, pyIndexZero, pyGet, pyGetD, hT]

/-- An upstream whose body binds `AdministrativeArea` to JSON null. -/
def upNullAdmin : Upstream := fun _ => ⟨200, .obj [("AdministrativeArea", .null)]⟩

/-- An upstream whose first conditions entry binds `Temperature` to JSON
null. -/
def upNullTemp : Upstream := fun _ => ⟨200, .arr [.obj [("Temperature", .null)]]⟩

/-- Witness for C9 at concrete null-valued fields. -/
theorem nullFieldRaises_wit :
    get_location_by_coordinates cfgW upNullAdmin pfZero pfZero = .error .attributeError ∧
    get_current_weather cfgW upNullTemp "12345" = .error .attributeError :=
  ⟨(nullFieldRaises cfgW upNullAdmin).1 pfZero pfZero 200 [("AdministrativeArea", .null)]
      (by decide) (by decide) rfl rfl,
   (nullFieldRaises cfgW upNullTemp).2 "12345" 200 [("Temperature", .null)] []
      (by decide) (by decide) rfl rfl⟩

/-- C10: in a forecast day entry with no `Date` key the date slot
renders as the empty string (the day line starts `"- : "`), while the
other absent fields of the same line render as `"None"`; the two
placeholder renderings differ. -/
theorem forecastDatePlaceholderDiffers (cfg : Config) (u : Upstream) :
    (∀ (location_key : String) (days : Int) (s : Nat)
        (fs dfs : List (String × Json)), 200 ≤ s → s < 300 →
      u (forecast_request cfg location_key) = ⟨s, .obj fs⟩ →
      pyLookup fs "Headline" = none →
      pyLookup fs "DailyForecasts" = some (.arr [.obj dfs]) →
      pyLookup dfs "Date" = none →
      pyLookup dfs "Temperature" = none →
      pyLookup dfs "Day" = none →
      get_forecast cfg u location_key days =
        .ok "Forecast Headline: No headline\n- : None, Min: None°C, Max: None°C") ∧
    ("" : String) ≠ "None" := by
  refine ⟨?_, by decide⟩
  intro location_key days s fs dfs h1 h2 hresp hH hD hDate hTemp hDay
  have hrs : raise_for_status (u (forecast_request cfg location_key)) = .ok (.obj fs) := by
    rw [hresp]; exact raise_for_status_ok h1 h2
  simp only [get_forecast]
  rw [hrs]
  simp only [pyBind_ok, headlineText, pyGetD, hH, hD, Option.getD]
  simp only [List.mapM, List.mapM.loop, forecastDayLine, pyGetD, hDate, hTemp, hDay,
    Option.getD, pyDateSplit, pyGet, pyLookup, pyBind_ok, pyIter, pyPure_eq_ok]
  rfl

/-- An upstream whose forecast body has one day entry with every field
absent. -/
def upBareDay : Upstream := fun _ => ⟨200, .obj [("DailyForecasts", .arr [.obj []])]⟩

/-- Witness for C10 at a concrete all-absent day entry. -/
theorem forecastDatePlaceholderDiffers_wit :
    get_forecast cfgW upBareDay "12345" 5 =
      .ok "Forecast Headline: No headline\n- : None, Min: None°C, Max: None°C" :=
  (forecastDatePlaceholderDiffers cfgW upBareDay).1 "12345" 5 200
    [("DailyForecasts", .arr [.obj []])] [] (by decide) (by decide) rfl rfl rfl rfl rfl rfl
